import Mathlib

/-!
Verification of the reminder lifecycle manager in `src/App.js`.

The stateful React component is embedded shallowly: the `reminders`
array (the Store) is passed explicitly, `Date.now()` is a millisecond
parameter `now : Int`, and each awaited gateway call is modelled by an
explicit result value (success carrying the identifier the promise
resolves with, or failure standing for a rejected promise).  The source
stores `scheduledFor` as `trigger.toISOString()` and reads it back with
`new Date(s).getTime()`; that round-trip reproduces the original
millisecond timestamp exactly, so the field is modelled directly as the
timestamp `Int`.
-/

namespace LocalReminder

/-- One element of the `reminders` array, as constructed in
`scheduleReminder` (`src/App.js` lines 240-246). -/
structure Reminder where
  id : String
  text : String
  timeValue : Int
  timeUnit : String
  scheduledFor : Int
  deriving Repr, DecidableEq

/-- Longest prefix of decimal digits. -/
def leadingDigits (cs : List Char) : List Char :=
  cs.takeWhile Char.isDigit

/-- Numeric value of a digit list, most significant digit first. -/
def digitsVal (ds : List Char) : Nat :=
  ds.foldl (fun acc c => acc * 10 + (c.toNat - 48)) 0

/-- JavaScript `parseInt(s)` with no radix argument, restricted to the
decimal branch: skip leading whitespace, read an optional sign, then the
longest prefix of decimal digits; `none` models the `NaN` returned when
no digit is found.  (The `0x` hexadecimal branch of `parseInt` is
omitted; no string this program compares against triggers it.) -/
def parseIntJS (s : String) : Option Int :=
  let cs := s.data.dropWhile (fun c => c == ' ' || c == '\t' || c == '\n' || c == '\r')
  match cs with
  | '-' :: rest =>
      let ds := leadingDigits rest
      if ds.isEmpty then none else some (-(digitsVal ds : Int))
  | '+' :: rest =>
      let ds := leadingDigits rest
      if ds.isEmpty then none else some ((digitsVal ds : Int))
  | _ =>
      let ds := leadingDigits cs
      if ds.isEmpty then none else some ((digitsVal ds : Int))

/-- The `switch (unit)` of `getMilliseconds` (`src/App.js` lines
188-197) applied to the already-parsed value; the `default` branch falls
through to the seconds factor. -/
def msOfUnit (numValue : Int) (unit : String) : Int :=
  if unit = "seconds" then numValue * 1000
  else if unit = "minutes" then numValue * 60 * 1000
  else if unit = "hours" then numValue * 60 * 60 * 1000
  else numValue * 1000

/-- `getMilliseconds(value, unit)` (`src/App.js` lines 186-198): parses
`value` with `parseInt` and scales by the unit; `none` propagates the
`NaN` of a digitless string. -/
def getMilliseconds (value : String) (unit : String) : Option Int :=
  (parseIntJS value).map (fun numValue => msOfUnit numValue unit)

/-- `cleanupExpiredReminders` (`src/App.js` lines 148-156): keep exactly
the reminders whose fire time is strictly after `now`. -/
def cleanupExpiredReminders (now : Int) (current : List Reminder) : List Reminder :=
  current.filter (fun reminder => decide (now < reminder.scheduledFor))

/-- `cleanupReminder(id)` (`src/App.js` lines 159-161): drop every entry
whose id equals the given one. -/
def cleanupReminder (id : String) (current : List Reminder) : List Reminder :=
  current.filter (fun reminder => reminder.id != id)

/-- Result of the awaited `Notifications.scheduleNotificationAsync`
call: the identifier it resolves with, or a rejection (caught by the
`catch` block of `scheduleReminder`). -/
inductive GatewayResult where
  | success (id : String)
  | failure
  deriving Repr, DecidableEq

/-- Result of the awaited `Notifications.cancelScheduledNotificationAsync`
call inside `cancelReminder`. -/
inductive CancelResult where
  | success
  | failure
  deriving Repr, DecidableEq

/-- Observable outcome of one `scheduleReminder` run: the new
`reminders` state, the toast message shown, and whether the two input
fields were cleared. -/
structure ScheduleOutcome where
  reminders : List Reminder
  toast : String
  cleared : Bool
  deriving Repr, DecidableEq

/-- `scheduleReminder` (`src/App.js` lines 215-254).  The `getD 0` is
unreachable filler: the branch it sits in has already established that
`parseIntJS timeValue` is `some`, so `getMilliseconds` is `some` too. -/
def scheduleReminder (reminderText timeValue timeUnit : String) (now : Int)
    (gateway : GatewayResult) (current : List Reminder) : ScheduleOutcome :=
  if reminderText = "" ∨ timeValue = "" then
    ⟨current, "Please enter both reminder text and time", false⟩
  else
    match parseIntJS timeValue with
    | none => ⟨current, "Please enter a valid number", false⟩
    | some numValue =>
      if numValue ≤ 0 then
        ⟨current, "Please enter a valid number", false⟩
      else
        match gateway with
        | .failure => ⟨current, "Error setting reminder", false⟩
        | .success id =>
          let milliseconds := (getMilliseconds timeValue timeUnit).getD 0
          let trigger := now + milliseconds
          ⟨current ++ [⟨id, reminderText, numValue, timeUnit, trigger⟩],
            "Reminder set successfully", true⟩

/-- Observable outcome of one `cancelReminder` run: the new `reminders`
state and the toast shown, if any. -/
structure CancelOutcome where
  reminders : List Reminder
  toast : Option String
  deriving Repr, DecidableEq

/-- `cancelReminder` (`src/App.js` lines 257-261).  The cancel call is
awaited with no surrounding `try`, so when its promise rejects the async
function aborts before `cleanupReminder(id)` and before the toast. -/
def cancelReminder (id : String) (gateway : CancelResult)
    (current : List Reminder) : CancelOutcome :=
  match gateway with
  | .success => ⟨cleanupReminder id current, some "Reminder cancelled"⟩
  | .failure => ⟨current, none⟩

/-- `beginsWith needle hay`: the needle is a leading segment of the hay. -/
def beginsWith : List Char → List Char → Bool
  | [], _ => true
  | _ :: _, [] => false
  | a :: as, b :: bs => a == b && beginsWith as bs

/-- `occursIn needle hay`: the needle occurs contiguously somewhere in
the hay. -/
def occursIn (needle : List Char) : List Char → Bool
  | [] => beginsWith needle []
  | b :: bs => beginsWith needle (b :: bs) || occursIn needle bs

/-- The test `appState.current.match(/inactive|background/)` of
`setupAppStateHandler` (`src/App.js` line 138): an alternation of two
literals matches iff one of them occurs as a substring. -/
def matchesInactiveOrBackground (s : String) : Bool :=
  occursIn "inactive".data s.data || occursIn "background".data s.data

/-- The `change` listener installed by `setupAppStateHandler`
(`src/App.js` lines 135-145): returns the new `reminders` state and the
updated `appState.current`. -/
def handleAppStateChange (prev next : String) (now : Int)
    (current : List Reminder) : List Reminder × String :=
  if matchesInactiveOrBackground prev && next == "active" then
    (cleanupExpiredReminders now current, next)
  else
    (current, next)

theorem getMilliseconds_of_parse (v u : String) (n : Int)
    (h : parseIntJS v = some n) : getMilliseconds v u = some (msOfUnit n u) := by
  simp [getMilliseconds, h]

theorem scheduleReminder_success_eq (text tv tu : String) (now : Int) (idStr : String)
    (store : List Reminder) (n : Int) (ht : text ≠ "") (htv : tv ≠ "")
    (hp : parseIntJS tv = some n) (hn : 0 < n) :
    scheduleReminder text tv tu now (.success idStr) store =
      ⟨store ++ [⟨idStr, text, n, tu, now + msOfUnit n tu⟩],
        "Reminder set successfully", true⟩ := by
  simp [scheduleReminder, ht, htv, hp, hn.not_le, getMilliseconds_of_parse tv tu n hp]

theorem scheduleReminder_failure_eq (text tv tu : String) (now : Int)
    (store : List Reminder) (n : Int) (ht : text ≠ "") (htv : tv ≠ "")
    (hp : parseIntJS tv = some n) (hn : 0 < n) :
    scheduleReminder text tv tu now .failure store =
      ⟨store, "Error setting reminder", false⟩ := by
  simp [scheduleReminder, ht, htv, hp, hn.not_le]

/-- C1: in any scheduling run that passes validation and so reaches the
gateway call, a gateway failure leaves the Store completely unchanged
and emits the distinct message "Error setting reminder", while a gateway
success is followed by exactly one insertion: the Store becomes the old
Store with a single new record appended, carrying the gateway id, and
the success message is emitted. -/
theorem c1_schedule_atomic (text tv tu : String) (now : Int) (store : List Reminder)
    (n : Int) (ht : text ≠ "") (htv : tv ≠ "") (hp : parseIntJS tv = some n)
    (hn : 0 < n) :
    ((scheduleReminder text tv tu now .failure store).reminders = store ∧
      (scheduleReminder text tv tu now .failure store).toast = "Error setting reminder") ∧
    ∀ idStr, ∃ r, r.id = idStr ∧
      (scheduleReminder text tv tu now (.success idStr) store).reminders = store ++ [r] ∧
      (scheduleReminder text tv tu now (.success idStr) store).toast =
        "Reminder set successfully" := by
  refine ⟨?_, fun idStr => ⟨⟨idStr, text, n, tu, now + msOfUnit n tu⟩, rfl, ?_, ?_⟩⟩
  · rw [scheduleReminder_failure_eq text tv tu now store n ht htv hp hn]
    exact ⟨rfl, rfl⟩
  · rw [scheduleReminder_success_eq text tv tu now idStr store n ht htv hp hn]
  · rw [scheduleReminder_success_eq text tv tu now idStr store n ht htv hp hn]

/-- Witness for C1 at text "Call mom", magnitude "2", unit "minutes". -/
theorem c1_schedule_atomic_witness :
    ((scheduleReminder "Call mom" "2" "minutes" 1000 .failure []).reminders = [] ∧
      (scheduleReminder "Call mom" "2" "minutes" 1000 .failure []).toast =
        "Error setting reminder") ∧
    ∃ r, r.id = "nid" ∧
      (scheduleReminder "Call mom" "2" "minutes" 1000 (.success "nid") []).reminders =
        [] ++ [r] ∧
      (scheduleReminder "Call mom" "2" "minutes" 1000 (.success "nid") []).toast =
        "Reminder set successfully" :=
  ⟨(c1_schedule_atomic "Call mom" "2" "minutes" 1000 [] 2 (by decide) (by decide)
      (by decide) (by decide)).1,
   (c1_schedule_atomic "Call mom" "2" "minutes" 1000 [] 2 (by decide) (by decide)
      (by decide) (by decide)).2 "nid"⟩

/-- C2 counterexample: the claim asserts that cancelling id "X" present
in a Store of size 1 yields a Store of size 0 lacking "X" and emits the
cancelled message even when the gateway cancel fails; on a gateway
cancel failure the code instead leaves the Store unchanged (still of
size 1, still holding "X") and emits no message, because the rejected
`await` aborts the function before `cleanupReminder`. -/
theorem c2_cancel_counterexample :
    (cancelReminder "X" .failure [⟨"X", "call", 1, "seconds", 5000⟩]).reminders =
      [⟨"X", "call", 1, "seconds", 5000⟩] ∧
    (cancelReminder "X" .failure [⟨"X", "call", 1, "seconds", 5000⟩]).reminders.length = 1 ∧
    (cancelReminder "X" .failure [⟨"X", "call", 1, "seconds", 5000⟩]).toast = none := by
  exact ⟨rfl, rfl, rfl⟩

/-- C2 (amended): for a reminder id present exactly once in a Store of
size N, when the gateway cancel call succeeds the Store becomes the same
Store without that entry — size N-1, lacking the id — and the
"Reminder cancelled" message is emitted; when the gateway cancel call
fails, the async function aborts before removal: the Store is unchanged
and no message is emitted. -/
theorem c2_cancel_removal (idStr : String) (pre post : List Reminder) (rX : Reminder)
    (hid : rX.id = idStr) (hpre : ∀ r ∈ pre, r.id ≠ idStr)
    (hpost : ∀ r ∈ post, r.id ≠ idStr) :
    (cancelReminder idStr .success (pre ++ rX :: post)).reminders = pre ++ post ∧
    (cancelReminder idStr .success (pre ++ rX :: post)).reminders.length =
      (pre ++ rX :: post).length - 1 ∧
    (∀ r ∈ (cancelReminder idStr .success (pre ++ rX :: post)).reminders, r.id ≠ idStr) ∧
    (cancelReminder idStr .success (pre ++ rX :: post)).toast = some "Reminder cancelled" ∧
    (cancelReminder idStr .failure (pre ++ rX :: post)).reminders = pre ++ rX :: post ∧
    (cancelReminder idStr .failure (pre ++ rX :: post)).toast = none := by
  have hkeep : ∀ (l : List Reminder), (∀ r ∈ l, r.id ≠ idStr) →
      l.filter (fun reminder => reminder.id != idStr) = l := by
    intro l hl
    apply List.filter_eq_self.mpr
    intro r hr
    simpa using hl r hr
  have hrem : (cancelReminder idStr .success (pre ++ rX :: post)).reminders = pre ++ post := by
    show (pre ++ rX :: post).filter (fun reminder => reminder.id != idStr) = pre ++ post
    rw [List.filter_append, List.filter_cons, hkeep pre hpre, hkeep post hpost]
    simp [hid]
  refine ⟨hrem, ?_, ?_, rfl, rfl, rfl⟩
  · rw [hrem]
    simp
  · intro r hr
    rw [hrem] at hr
    rcases List.mem_append.mp hr with h | h
    · exact hpre r h
    · exact hpost r h

/-- Witness for C2 (amended) on a two-element Store. -/
theorem c2_cancel_removal_witness :
    (cancelReminder "X" .success
        [⟨"W", "walk", 1, "hours", 9⟩, ⟨"X", "call", 1, "seconds", 5⟩]).reminders =
      [⟨"W", "walk", 1, "hours", 9⟩] ∧
    (cancelReminder "X" .failure
        [⟨"W", "walk", 1, "hours", 9⟩, ⟨"X", "call", 1, "seconds", 5⟩]).reminders =
      [⟨"W", "walk", 1, "hours", 9⟩, ⟨"X", "call", 1, "seconds", 5⟩] :=
  ⟨(c2_cancel_removal "X" [⟨"W", "walk", 1, "hours", 9⟩] []
      ⟨"X", "call", 1, "seconds", 5⟩ rfl (by decide) (by decide)).1,
   (c2_cancel_removal "X" [⟨"W", "walk", 1, "hours", 9⟩] []
      ⟨"X", "call", 1, "seconds", 5⟩ rfl (by decide) (by decide)).2.2.2.2.1⟩

/-- C3: validation runs before the gateway call (the outcome of every
failing branch is the same for any gateway result) and before any Store
mutation; an empty label or empty magnitude string yields the
"missing input" message with the Store unchanged, this check winning
over the number check; otherwise a magnitude string whose `parseInt`
value is `NaN` or non-positive yields the distinct "invalid number"
message with the Store unchanged; "0", "-3" and "abc" are such strings. -/
theorem c3_validation (text tv tu : String) (now : Int) (g : GatewayResult)
    (store : List Reminder) :
    ((text = "" ∨ tv = "") →
        scheduleReminder text tv tu now g store =
          ⟨store, "Please enter both reminder text and time", false⟩) ∧
    (text ≠ "" → tv ≠ "" → (∀ n, parseIntJS tv = some n → n ≤ 0) →
        scheduleReminder text tv tu now g store =
          ⟨store, "Please enter a valid number", false⟩) ∧
    (parseIntJS "0" = some 0 ∧ parseIntJS "-3" = some (-3) ∧ parseIntJS "abc" = none) := by
  refine ⟨fun h => ?_, fun ht htv hn => ?_, by decide, by decide, by decide⟩
  · simp [scheduleReminder, h]
  · rcases hcase : parseIntJS tv with _ | n
    · simp [scheduleReminder, ht, htv, hcase]
    · simp [scheduleReminder, ht, htv, hcase, hn n hcase]

/-- Witness for C3: a missing-input run and an invalid-number run. -/
theorem c3_validation_witness :
    scheduleReminder "" "5" "minutes" 0 .failure [] =
      ⟨[], "Please enter both reminder text and time", false⟩ ∧
    scheduleReminder "x" "0" "minutes" 0 .failure [] =
      ⟨[], "Please enter a valid number", false⟩ :=
  ⟨(c3_validation "" "5" "minutes" 0 .failure []).1 (Or.inl rfl),
   (c3_validation "x" "0" "minutes" 0 .failure []).2.1 (by decide) (by decide)
     (by
       intro n h
       have h0 : parseIntJS "0" = some 0 := by decide
       rw [h0] at h
       injection h with h
       omega)⟩

/-- C4: for every Store and every instant, compaction keeps exactly the
reminders whose fire time is strictly greater than `now`; in particular
a Store with fire times now-5s, now+5s and now+1h compacts to exactly
the latter two. -/
theorem c4_compaction (now : Int) (store : List Reminder) (a b c : Reminder)
    (ha : a.scheduledFor = now - 5000) (hb : b.scheduledFor = now + 5000)
    (hc : c.scheduledFor = now + 3600000) :
    (∀ r, r ∈ cleanupExpiredReminders now store ↔ r ∈ store ∧ now < r.scheduledFor) ∧
    cleanupExpiredReminders now [a, b, c] = [b, c] := by
  constructor
  · intro r
    simp [cleanupExpiredReminders, List.mem_filter]
  · have h1 : ¬ now < a.scheduledFor := by omega
    have h2 : now < b.scheduledFor := by omega
    have h3 : now < c.scheduledFor := by omega
    simp [cleanupExpiredReminders, List.filter_cons, h1, h2, h3]

/-- Witness for C4 at now = 0 with fire times -5000, 5000, 3600000. -/
theorem c4_compaction_witness :
    cleanupExpiredReminders 0
        [⟨"a", "a", 1, "seconds", -5000⟩, ⟨"b", "b", 1, "seconds", 5000⟩,
          ⟨"c", "c", 1, "hours", 3600000⟩] =
      [⟨"b", "b", 1, "seconds", 5000⟩, ⟨"c", "c", 1, "hours", 3600000⟩] :=
  (c4_compaction 0 [] ⟨"a", "a", 1, "seconds", -5000⟩ ⟨"b", "b", 1, "seconds", 5000⟩
      ⟨"c", "c", 1, "hours", 3600000⟩ (by decide) (by decide) (by decide)).2

/-- C5: removal-by-id is idempotent — removing the same id twice yields
the same Store as removing it once — and removing an id absent from the
Store leaves the Store unchanged (a total, error-free no-op). -/
theorem c5_removal_idempotent (idStr : String) (store : List Reminder) :
    cleanupReminder idStr (cleanupReminder idStr store) = cleanupReminder idStr store ∧
    ((∀ r ∈ store, r.id ≠ idStr) → cleanupReminder idStr store = store) := by
  constructor
  · apply List.filter_eq_self.mpr
    intro r hr
    exact (List.mem_filter.mp hr).2
  · intro h
    apply List.filter_eq_self.mpr
    intro r hr
    simpa using h r hr

/-- Witness for C5 on a one-element Store lacking the removed id. -/
theorem c5_removal_idempotent_witness :
    cleanupReminder "x" (cleanupReminder "x" [⟨"y", "tea", 1, "seconds", 10⟩]) =
      cleanupReminder "x" [⟨"y", "tea", 1, "seconds", 10⟩] ∧
    cleanupReminder "x" [⟨"y", "tea", 1, "seconds", 10⟩] =
      [⟨"y", "tea", 1, "seconds", 10⟩] :=
  ⟨(c5_removal_idempotent "x" [⟨"y", "tea", 1, "seconds", 10⟩]).1,
   (c5_removal_idempotent "x" [⟨"y", "tea", 1, "seconds", 10⟩]).2 (by decide)⟩

/-- C6: for every validated scheduling input, the inserted Reminder's
absolute fire time is `now` plus the unit conversion of the parsed
magnitude, and a later compaction at any instant at or past that fire
time removes it (leaving exactly the compaction of the old Store);
magnitude "2" parses to 2 and two minutes convert to 120000 ms. -/
theorem c6_fire_time (text tv tu : String) (now : Int) (idStr : String)
    (store : List Reminder) (n : Int) (ht : text ≠ "") (htv : tv ≠ "")
    (hp : parseIntJS tv = some n) (hn : 0 < n) :
    (scheduleReminder text tv tu now (.success idStr) store).reminders =
      store ++ [⟨idStr, text, n, tu, now + msOfUnit n tu⟩] ∧
    (∀ t, now + msOfUnit n tu ≤ t →
      cleanupExpiredReminders t
          (scheduleReminder text tv tu now (.success idStr) store).reminders =
        cleanupExpiredReminders t store) ∧
    (parseIntJS "2" = some 2 ∧ msOfUnit 2 "minutes" = 120000) := by
  have heq := scheduleReminder_success_eq text tv tu now idStr store n ht htv hp hn
  refine ⟨by rw [heq], fun t htle => ?_, by decide, by decide⟩
  rw [heq]
  show cleanupExpiredReminders t (store ++ [⟨idStr, text, n, tu, now + msOfUnit n tu⟩]) =
    cleanupExpiredReminders t store
  have hnot : ¬ t < now + msOfUnit n tu := not_lt.mpr htle
  simp [cleanupExpiredReminders, List.filter_append, hnot]

/-- Witness for C6: "Call mom" in "2" "minutes" at t0 = 0 fires at
120000; a sweep at 120000 removes it. -/
theorem c6_fire_time_witness :
    (scheduleReminder "Call mom" "2" "minutes" 0 (.success "n1") []).reminders =
      [] ++ [⟨"n1", "Call mom", 2, "minutes", 0 + msOfUnit 2 "minutes"⟩] ∧
    cleanupExpiredReminders 120000
        (scheduleReminder "Call mom" "2" "minutes" 0 (.success "n1") []).reminders =
      cleanupExpiredReminders 120000 [] :=
  ⟨(c6_fire_time "Call mom" "2" "minutes" 0 "n1" [] 2 (by decide) (by decide)
      (by decide) (by decide)).1,
   (c6_fire_time "Call mom" "2" "minutes" 0 "n1" [] 2 (by decide) (by decide)
      (by decide) (by decide)).2.1 120000 (by decide)⟩

/-- C7: for every magnitude string parsing to a positive integer n, the
conversion yields n*1000 ms for seconds, n*60000 for minutes, n*3600000
for hours, and falls back to the seconds factor on any unrecognised
unit tag without failing. -/
theorem c7_unit_conversion (v : String) (n : Int) (hp : parseIntJS v = some n)
    (hn : 0 < n) :
    getMilliseconds v "seconds" = some (n * 1000) ∧
    getMilliseconds v "minutes" = some (n * 60000) ∧
    getMilliseconds v "hours" = some (n * 3600000) ∧
    (∀ u, u ≠ "seconds" → u ≠ "minutes" → u ≠ "hours" →
      getMilliseconds v u = some (n * 1000)) := by
  refine ⟨?_, ?_, ?_, fun u h1 h2 h3 => ?_⟩
  · rw [getMilliseconds_of_parse v "seconds" n hp]
    norm_num [msOfUnit]
  · rw [getMilliseconds_of_parse v "minutes" n hp]
    norm_num [msOfUnit]
    rw [if_neg (by decide)]
    ring
  · rw [getMilliseconds_of_parse v "hours" n hp]
    norm_num [msOfUnit]
    rw [if_neg (by decide), if_neg (by decide)]
    ring
  · rw [getMilliseconds_of_parse v u n hp]
    simp [msOfUnit, h1, h2, h3]

/-- Witness for C7 at magnitude "3", including the fallback tag "days". -/
theorem c7_unit_conversion_witness :
    getMilliseconds "3" "seconds" = some (3 * 1000) ∧
    getMilliseconds "3" "minutes" = some (3 * 60000) ∧
    getMilliseconds "3" "hours" = some (3 * 3600000) ∧
    getMilliseconds "3" "days" = some (3 * 1000) :=
  ⟨(c7_unit_conversion "3" 3 (by decide) (by decide)).1,
   (c7_unit_conversion "3" 3 (by decide) (by decide)).2.1,
   (c7_unit_conversion "3" 3 (by decide) (by decide)).2.2.1,
   (c7_unit_conversion "3" 3 (by decide) (by decide)).2.2.2 "days" (by decide)
     (by decide) (by decide)⟩

/-- C8: the resume handler is edge-triggered — when the previous state
is "inactive" or "background" and the next is "active" it runs the
compaction, while a previous state of "active", or any next state other
than "active", leaves the Store untouched; in every case the recorded
app state becomes the next state. -/
theorem c8_resume_edge (prev next : String) (now : Int) (store : List Reminder) :
    ((prev = "inactive" ∨ prev = "background") → next = "active" →
        handleAppStateChange prev next now store =
          (cleanupExpiredReminders now store, next)) ∧
    (prev = "active" → handleAppStateChange prev next now store = (store, next)) ∧
    (next ≠ "active" → handleAppStateChange prev next now store = (store, next)) := by
  refine ⟨fun h1 h2 => ?_, fun h => ?_, fun h => ?_⟩
  · subst h2
    rcases h1 with h | h <;> subst h <;> rfl
  · subst h
    simp [handleAppStateChange, matchesInactiveOrBackground]
    intro hcontra
    simp [show occursIn "inactive".data "active".data = false from rfl,
      show occursIn "background".data "active".data = false from rfl] at hcontra
  · have hne : (next == "active") = false := by simpa using h
    simp [handleAppStateChange, hne]

/-- Witness for C8: background→active compacts; active→background does
not. -/
theorem c8_resume_edge_witness :
    handleAppStateChange "background" "active" 0 [⟨"a", "a", 1, "seconds", -1⟩] =
      (cleanupExpiredReminders 0 [⟨"a", "a", 1, "seconds", -1⟩], "active") ∧
    handleAppStateChange "active" "background" 0 [⟨"a", "a", 1, "seconds", -1⟩] =
      ([⟨"a", "a", 1, "seconds", -1⟩], "background") :=
  ⟨(c8_resume_edge "background" "active" 0 [⟨"a", "a", 1, "seconds", -1⟩]).1
      (Or.inr rfl) rfl,
   (c8_resume_edge "active" "background" 0 [⟨"a", "a", 1, "seconds", -1⟩]).2.1 rfl⟩

/-- C9: magnitude parsing is lenient prefix parsing — "3x" parses to 3
and "2.9" to 2, so validation succeeds, scheduling proceeds, and the
stored magnitude and the computed duration use the truncated integer
(3 seconds give 3000 ms; 2 minutes give 120000 ms). -/
theorem c9_lenient_parse :
    parseIntJS "3x" = some 3 ∧ parseIntJS "2.9" = some 2 ∧
    scheduleReminder "t" "3x" "seconds" 0 (.success "i") [] =
      ⟨[⟨"i", "t", 3, "seconds", 3000⟩], "Reminder set successfully", true⟩ ∧
    scheduleReminder "t" "2.9" "minutes" 0 (.success "i2") [] =
      ⟨[⟨"i2", "t", 2, "minutes", 120000⟩], "Reminder set successfully", true⟩ := by
  refine ⟨by decide, by decide, by decide, by decide⟩

/-- C10: removal-by-id keeps exactly the records whose id differs and
compaction keeps exactly the records with a strictly future fire time;
in both cases the survivors are the original records themselves,
field-for-field, in their original relative order (a sublist of the
input Store). -/
theorem c10_frame (idStr : String) (now : Int) (store : List Reminder) :
    List.Sublist (cleanupReminder idStr store) store ∧
    (∀ r, r ∈ cleanupReminder idStr store ↔ r ∈ store ∧ r.id ≠ idStr) ∧
    List.Sublist (cleanupExpiredReminders now store) store ∧
    (∀ r, r ∈ cleanupExpiredReminders now store ↔ r ∈ store ∧ now < r.scheduledFor) := by
  refine ⟨List.filter_sublist store, fun r => ?_, List.filter_sublist store, fun r => ?_⟩
  · simp [cleanupReminder, List.mem_filter]
  · simp [cleanupExpiredReminders, List.mem_filter]

end LocalReminder
